import Mathlib

/-!
Verification development for the Claude Code CLI plugin
(`src/service.ts`, `src/provider.ts`, `src/types.ts`).

The TypeScript sources are shallowly embedded as pure Lean functions.
JavaScript strings are modelled through their character lists
(`String.data`); machine behaviour that is external to the program
(the spawned process, the filesystem, the wall clock) is supplied as an
explicit environment value, and the side effects the engine performs
(directory creation/removal, kill signals, one-time auth logging) are
recorded as an event trace returned alongside the result.
-/

/-! ## JavaScript string primitives -/

/-- JS `String.prototype.trim`, modelled over the character list
(whitespace set approximated by `Char.isWhitespace`). -/
def jsTrim (s : String) : String :=
  ⟨((s.data.dropWhile Char.isWhitespace).reverse.dropWhile Char.isWhitespace).reverse⟩

/-- JS `String.prototype.toLowerCase` (ASCII case folding, which covers
every pattern in the auth pattern set). -/
def toLowerStr (s : String) : String :=
  ⟨s.data.map Char.toLower⟩

/-- Substring occurrence test over character lists: `hasInfix l pat` is
true iff `pat` occurs contiguously inside `l`. -/
def hasInfix : List Char → List Char → Bool
  | [], pat => pat.isEmpty
  | l@(_ :: rest), pat => pat.isPrefixOf l || hasInfix rest pat

/-- JS `String.prototype.includes`. -/
def jsIncludes (s sub : String) : Bool :=
  hasInfix s.data sub.data

/-- JS `String.prototype.startsWith` (case sensitive). -/
def jsStartsWith (s p : String) : Bool :=
  p.data.isPrefixOf s.data

/-- JS `prompt.slice(-n)`: the last `n` characters, or the whole string
when it is no longer than `n` (Nat truncated subtraction mirrors the JS
clamp of a negative start index). -/
def jsSliceTail (s : String) (n : Nat) : String :=
  ⟨s.data.drop (s.data.length - n)⟩

/-! ## types.ts -/

/-- Embeds `AUTH_ERROR_PATTERNS` from `src/types.ts`. -/
def AUTH_ERROR_PATTERNS : List String :=
  ["OAuth token has expired",
   "Authentication required",
   "token expired",
   "refresh token",
   "invalid token",
   "unauthorized",
   "Please run `claude login`",
   "not logged in"]

/-- Embeds `isAuthError` from `src/types.ts`: case-insensitive substring
match of any pattern inside the message. -/
def isAuthError (message : String) : Bool :=
  AUTH_ERROR_PATTERNS.any fun pattern =>
    jsIncludes (toLowerStr message) (toLowerStr pattern)

/-- Embeds the `string[] | string` shape of the tool lists in
`ClaudeInvokeOptions`. -/
inductive ToolsSpec where
  | list (ts : List String)
  | str (s : String)
  deriving DecidableEq, Repr

/-- `Array.isArray(tools) ? tools.join(',') : tools` from `service.ts`. -/
def ToolsSpec.serialize : ToolsSpec → String
  | ToolsSpec.list ts => String.intercalate "," ts
  | ToolsSpec.str s => s

/-- JS truthiness of a tools value: an empty string is falsy (the flag is
skipped), while any array — even empty — is truthy. -/
def toolsTruthy : ToolsSpec → Bool
  | ToolsSpec.list _ => true
  | ToolsSpec.str s => decide (s ≠ "")

/-- Embeds `ClaudeInvokeOptions` from `src/types.ts`; absent optional
fields are `none`. -/
structure ClaudeInvokeOptions where
  prompt : String
  model : Option String := none
  timeout : Option Nat := none
  cwd : Option String := none
  allowedTools : Option ToolsSpec := none
  disallowedTools : Option ToolsSpec := none
  deriving DecidableEq, Repr

/-- Embeds `ClaudeInvokeResult` from `src/types.ts`. -/
structure ClaudeInvokeResult where
  output : String
  exitCode : Int
  stderr : String
  duration : Nat
  deriving DecidableEq, Repr

/-- Embeds `AuthStatus` from `src/types.ts`. -/
structure AuthStatus where
  authenticated : Bool
  expiresAt : Option Int
  subscriptionType : Option String
  needsLogin : Bool
  error : Option String
  deriving DecidableEq, Repr

/-- Embeds the `claudeAiOauth` payload of `ClaudeCredentials`; at runtime
the JSON may lack the token or the expiry, so those are optional here
(the code guards both with truthiness checks). -/
structure OauthCreds where
  accessToken : String
  expiresAt : Option Int
  subscriptionType : Option String
  deriving DecidableEq, Repr

/-- Embeds `ClaudeCredentials` from `src/types.ts`. -/
structure ClaudeCredentials where
  claudeAiOauth : Option OauthCreds
  deriving DecidableEq, Repr

/-! ## service.ts: constants and state -/

/-- `DEFAULT_TIMEOUT` from `src/service.ts`. -/
def DEFAULT_TIMEOUT : Nat := 120000

/-- `MAX_PROMPT_LENGTH` from `src/service.ts`. -/
def MAX_PROMPT_LENGTH : Nat := 50000

/-- The mutable per-instance state of `ClaudeCodeService`: the configured
default timeout and the one-time `authErrorEmitted` flag. -/
structure ServiceState where
  defaultTimeout : Nat
  authErrorEmitted : Bool
  deriving DecidableEq, Repr

/-! ## service.ts: checkAuth -/

/-- Outcome of reading and parsing the credentials file: `readFile` threw
(missing/unreadable file), `JSON.parse` threw (malformed content), or a
parsed credentials value. -/
inductive CredsFile where
  | unreadable (msg : String)
  | malformed (msg : String)
  | parsed (creds : ClaudeCredentials)
  deriving DecidableEq, Repr

/-- Embeds `ClaudeCodeService.checkAuth` (`src/service.ts` lines 72-104).
`now` stands for `Date.now()`. The JS truthiness checks are preserved:
a missing or zero `expiresAt` is falsy, so `isExpired` is false there. -/
def checkAuth (file : CredsFile) (now : Int) : AuthStatus :=
  match file with
  | CredsFile.unreadable msg =>
      { authenticated := false, expiresAt := none, subscriptionType := none,
        needsLogin := true, error := some msg }
  | CredsFile.malformed msg =>
      { authenticated := false, expiresAt := none, subscriptionType := none,
        needsLogin := true, error := some msg }
  | CredsFile.parsed creds =>
      match creds.claudeAiOauth with
      | none =>
          { authenticated := false, expiresAt := none, subscriptionType := none,
            needsLogin := true, error := none }
      | some oauth =>
          if oauth.accessToken = "" then
            { authenticated := false, expiresAt := none, subscriptionType := none,
              needsLogin := true, error := none }
          else
            let isExpired : Bool :=
              match oauth.expiresAt with
              | none => false
              | some e => if e = 0 then false else decide (e < now)
            { authenticated := !isExpired, expiresAt := oauth.expiresAt,
              subscriptionType := oauth.subscriptionType,
              needsLogin := isExpired, error := none }

/-! ## service.ts: invoke -/

/-- Observable actions the engine performs during one invocation, in
program order. -/
inductive Event where
  | createTempDir (dir : String)
  | spawn (args : List String) (workDir : String)
  | kill
  | logAuthError
  | removeDirOk (dir : String)
  | removeDirFailed (dir : String)
  deriving DecidableEq, Repr

/-- Behaviour of the spawned child process: it either finishes inside the
timeout with captured streams and exit code (`proc.exited` is modelled as
optional, matching the `exitCode ?? _` guards), or the timeout timer wins
the race. -/
inductive ProcBehavior where
  | completes (output : String) (stderr : String) (exitCode : Option Int)
  | timesOut
  deriving DecidableEq, Repr

/-- Environment for one invocation: what `mkdtemp` would produce (only
consulted when no `cwd` is given), whether `Bun.spawn` throws, the child
behaviour, whether `rm` of the temp workspace throws, and the measured
wall-clock duration. -/
structure InvokeEnv where
  mkdtempResult : Except String String
  spawnError : Option String
  behavior : ProcBehavior
  rmFails : Bool
  duration : Nat
  deriving Repr

/-- Boolean ok-test for the `mkdtemp` outcome. -/
def exceptOk : Except String String → Bool
  | Except.ok _ => true
  | Except.error _ => false

/-- Embeds `handleAuthError` (`src/service.ts` lines 109-116): log the
re-login instruction only the first time, then latch the flag. -/
def handleAuthError (st : ServiceState) : ServiceState × List Event :=
  if st.authErrorEmitted then (st, [])
  else ({ st with authErrorEmitted := true }, [Event.logAuthError])

/-- The timeout rejection message
`` `ClaudeCodeTimeout: exceeded ${timeout / 1000}s` `` (JS number division
rendered for whole-millisecond timeouts via Nat division). -/
def timeoutMessage (timeoutMillis : Nat) : String :=
  "ClaudeCodeTimeout: exceeded " ++ toString (timeoutMillis / 1000) ++ "s"

/-- The classification condition on line 205 of `src/service.ts`:
`isAuthError(stderr) || (exitCode !== 0 && isAuthError(output))`.
A null exit code is `!== 0` in JS. -/
def authCondition (out err : String) (exitCode : Option Int) : Bool :=
  isAuthError err || (!(exitCode == some 0) && isAuthError out)

/-- Embeds the argument construction of `invoke` (`src/service.ts`
lines 137-154). -/
def buildArgs (o : ClaudeInvokeOptions) : List String :=
  ["claude", "-p", jsSliceTail o.prompt MAX_PROMPT_LENGTH,
   "--model", o.model.getD "sonnet"]
  ++ (match o.allowedTools with
      | none => []
      | some t => if toolsTruthy t then ["--allowedTools", t.serialize] else [])
  ++ (match o.disallowedTools with
      | none => []
      | some t => if toolsTruthy t then ["--disallowedTools", t.serialize] else [])

/-- Embeds the `finally` block of `invoke` (`src/service.ts`
lines 245-269): kill the process if one was spawned (a no-op error is
swallowed), then remove the temp workspace if this invocation created
one, logging—but never surfacing—a removal failure. -/
def finallyEvents (procSpawned : Bool) (tempDir : Option String) (rmFails : Bool) :
    List Event :=
  (if procSpawned then [Event.kill] else [])
  ++ (match tempDir with
      | none => []
      | some d => [if rmFails then Event.removeDirFailed d else Event.removeDirOk d])

/-- Embeds the `catch` block of `invoke` (`src/service.ts` lines 228-244):
an auth-looking message triggers the one-time log, and the error is
converted into a best-effort result with exit code 1. -/
def invokeCatch (st : ServiceState) (msg : String) (duration : Nat) :
    ClaudeInvokeResult × ServiceState × List Event :=
  let se := if isAuthError msg then handleAuthError st else (st, [])
  ({ output := "", exitCode := 1, stderr := msg, duration := duration },
   se.1, se.2)

/-- The part of `invoke` from `Bun.spawn` onward (`src/service.ts`
lines 171-258), given the already-resolved working directory and the
temp-dir ownership marker. -/
def runSpawn (st : ServiceState) (args : List String) (workDir : String)
    (tempDir : Option String) (env : InvokeEnv) (timeout : Nat) :
    ClaudeInvokeResult × ServiceState × List Event :=
  match env.spawnError with
  | some msg =>
      let c := invokeCatch st msg env.duration
      (c.1, c.2.1, c.2.2 ++ finallyEvents false tempDir env.rmFails)
  | none =>
      match env.behavior with
      | ProcBehavior.timesOut =>
          let c := invokeCatch st (timeoutMessage timeout) env.duration
          (c.1, c.2.1,
           Event.spawn args workDir :: Event.kill ::
             (c.2.2 ++ finallyEvents true tempDir env.rmFails))
      | ProcBehavior.completes out err code =>
          if authCondition out err code then
            let se := handleAuthError st
            ({ output := "", exitCode := code.getD 1,
               stderr := if err = "" then "OAuth token expired. Run: claude login" else err,
               duration := env.duration },
             se.1,
             Event.spawn args workDir :: (se.2 ++ finallyEvents true tempDir env.rmFails))
          else
            ({ output := jsTrim out, exitCode := code.getD 0,
               stderr := jsTrim err, duration := env.duration },
             st,
             Event.spawn args workDir :: finallyEvents true tempDir env.rmFails)

/-- Embeds `ClaudeCodeService.invoke` (`src/service.ts` lines 121-270).
`resolve(cwd)` is modelled as the identity on the given path. -/
def invoke (st : ServiceState) (o : ClaudeInvokeOptions) (env : InvokeEnv) :
    ClaudeInvokeResult × ServiceState × List Event :=
  let timeout := o.timeout.getD st.defaultTimeout
  let args := buildArgs o
  match o.cwd with
  | some c => runSpawn st args c none env timeout
  | none =>
      match env.mkdtempResult with
      | Except.error msg =>
          let c := invokeCatch st msg env.duration
          (c.1, c.2.1, c.2.2 ++ finallyEvents false none env.rmFails)
      | Except.ok d =>
          let r := runSpawn st args d (some d) env timeout
          (r.1, r.2.1, Event.createTempDir d :: r.2.2)

/-! ## service.ts: generateText -/

/-- The regex strip `/^\s*<response>\s*/i` applied to the front of the
string: remove leading whitespace, the case-insensitive opening tag, and
whitespace following it; otherwise leave the string unchanged. -/
def stripOpenTag (s : String) : String :=
  let l := s.data.dropWhile Char.isWhitespace
  if (l.take 10).map Char.toLower = "<response>".data then
    ⟨(l.drop 10).dropWhile Char.isWhitespace⟩
  else s

/-- The regex strip of the trailing marker with its surrounding
whitespace, applied to the end of the string; otherwise the string is
unchanged. -/
def stripCloseTag (s : String) : String :=
  let r := s.data.reverse.dropWhile Char.isWhitespace
  if (r.take 11).map Char.toLower = "</response>".data.reverse then
    ⟨((r.drop 11).dropWhile Char.isWhitespace).reverse⟩
  else s

/-- The wrapper-stripping normalization of `generateText`
(`src/service.ts` lines 287-290): trim, strip a leading opening marker,
strip a trailing closing marker, trim again. -/
def stripResponseTags (s : String) : String :=
  jsTrim (stripCloseTag (stripOpenTag (jsTrim s)))

/-- The post-processing of `ClaudeCodeService.generateText`
(`src/service.ts` lines 278-292) applied to an invocation result:
non-zero exit raises `ClaudeCodeError` with stderr or a fixed fallback,
empty output raises `EmptyOutput`, and success returns the output with
the marker pair stripped. -/
def generateTextPost (r : ClaudeInvokeResult) : Except String String :=
  if r.exitCode ≠ 0 then
    Except.error ("ClaudeCodeError: " ++ (if r.stderr = "" then "Unknown error" else r.stderr))
  else if r.output = "" then
    Except.error "EmptyOutput: Claude Code returned nothing"
  else
    Except.ok (stripResponseTags r.output)

/-- Embeds `ClaudeCodeService.generateText` (`src/service.ts`
lines 275-293): invoke with only prompt and model set, then post-process. -/
def generateText (st : ServiceState) (prompt : String) (model : Option String)
    (env : InvokeEnv) : Except String String × ServiceState × List Event :=
  let r := invoke st { prompt := prompt, model := model } env
  (generateTextPost r.1, r.2.1, r.2.2)

/-! ## provider.ts: invokeDirectly -/

/-- The wrap-if-missing normalization of the provider's fallback path
(`src/provider.ts` lines 118-126): if the trimmed output does not start
with the opening marker, wrap it in the marker pair; otherwise return it
unchanged. -/
def invokeDirectlyNormalize (output : String) : String :=
  let trimmed := jsTrim output
  if jsStartsWith trimmed "<response>" then trimmed
  else "<response>\n" ++ trimmed ++ "\n</response>"

/-- The failure message of the provider's fallback path
(`src/provider.ts` lines 102-109): stderr, else stdout, else a fixed
fallback. -/
def invokeDirectlyFail (output errors : String) : String :=
  let stderr := jsTrim errors
  let stdout := jsTrim output
  "ClaudeCodeError: " ++
    (if stderr ≠ "" then stderr else if stdout ≠ "" then stdout else "Unknown error")

/-! ## sequential invocations on one instance -/

/-- Run a list of invocations sequentially on one service instance,
threading the state and concatenating the event traces. -/
def runAll (st : ServiceState) : List (ClaudeInvokeOptions × InvokeEnv) →
    ServiceState × List Event
  | [] => (st, [])
  | (o, env) :: rest =>
      let r := invoke st o env
      let rest' := runAll r.2.1 rest
      (rest'.1, r.2.2 ++ rest'.2)

/-- Number of one-time auth-failure log emissions in a trace. -/
def countAuthLogs : List Event → Nat
  | [] => 0
  | e :: rest => (if e = Event.logAuthError then 1 else 0) + countAuthLogs rest

/-! ## Concrete fixtures used by counterexamples and witnesses -/

/-- A fresh service instance with default configuration. -/
def st0 : ServiceState := { defaultTimeout := 120000, authErrorEmitted := false }

/-- A service instance that has already reported an auth failure. -/
def stT : ServiceState := { defaultTimeout := 120000, authErrorEmitted := true }

/-- Options with an explicit working directory. -/
def optsW : ClaudeInvokeOptions := { prompt := "hi", cwd := some "/w" }

/-- Options without a working directory (engine-managed workspace). -/
def optsN : ClaudeInvokeOptions := { prompt := "hi" }

/-- Child writes auth-failure text to stdout only and exits 0. -/
def envAuthStdout : InvokeEnv :=
  { mkdtempResult := Except.ok "/tmp/d", spawnError := none,
    behavior := ProcBehavior.completes "OAuth token has expired" "" (some 0),
    rmFails := false, duration := 5 }

/-- Child succeeds with plain output. -/
def envHello : InvokeEnv :=
  { mkdtempResult := Except.ok "/tmp/d", spawnError := none,
    behavior := ProcBehavior.completes "hello" "" (some 0),
    rmFails := false, duration := 5 }

/-- Child fails with a non-zero exit, empty stderr, non-empty stdout. -/
def envFailEmptyErr : InvokeEnv :=
  { mkdtempResult := Except.ok "/tmp/d", spawnError := none,
    behavior := ProcBehavior.completes "oops" "" (some 1),
    rmFails := false, duration := 5 }

/-- The timer wins the race. -/
def envTimeout : InvokeEnv :=
  { mkdtempResult := Except.ok "/tmp/d", spawnError := none,
    behavior := ProcBehavior.timesOut, rmFails := false, duration := 5 }

/-- `Bun.spawn` itself throws. -/
def envSpawnFail : InvokeEnv :=
  { mkdtempResult := Except.ok "/tmp/d", spawnError := some "spawn claude ENOENT",
    behavior := ProcBehavior.timesOut, rmFails := false, duration := 5 }

/-- Child fails with auth-failure text on stderr. -/
def envAuthErr : InvokeEnv :=
  { mkdtempResult := Except.ok "/tmp/d", spawnError := none,
    behavior := ProcBehavior.completes "" "OAuth token has expired" (some 1),
    rmFails := false, duration := 5 }

/-- Like `envHello` but workspace removal fails. -/
def envHelloRmFail : InvokeEnv := { envHello with rmFails := true }

/-! ## Helper lemmas -/

theorem countAuthLogs_append (a b : List Event) :
    countAuthLogs (a ++ b) = countAuthLogs a + countAuthLogs b := by
  induction a with
  | nil => simp [countAuthLogs]
  | cons e rest ih => simp [countAuthLogs, ih]; omega

theorem countAuthLogs_finally (ps : Bool) (td : Option String) (rf : Bool) :
    countAuthLogs (finallyEvents ps td rf) = 0 := by
  cases ps <;> rcases td with _ | d <;> cases rf <;>
    simp [finallyEvents, countAuthLogs, countAuthLogs_append]

theorem handleAuthError_spec (st : ServiceState) :
    (handleAuthError st).1.authErrorEmitted = true
    ∧ countAuthLogs (handleAuthError st).2 = 1 - st.authErrorEmitted.toNat := by
  cases h : st.authErrorEmitted <;> simp [handleAuthError, h, countAuthLogs]

theorem isPrefixOf_append_self (l r : List Char) : l.isPrefixOf (l ++ r) = true := by
  simp [List.isPrefixOf_iff_prefix]

theorem jsSliceTail_data (s : String) (n : Nat) :
    (jsSliceTail s n).data = s.data.drop (s.data.length - n) := rfl

/-! ## Claim C1 -/

/-- Claim C1 as stated is false: a child that writes authentication-failure
text to standard output only and exits 0 is NOT classified as an
authentication failure — `invoke` returns it as a success, with the auth
text as the output and no auth side effect fired. -/
theorem C1_counterexample :
    isAuthError "OAuth token has expired" = true
    ∧ (invoke st0 optsW envAuthStdout).1.output = "OAuth token has expired"
    ∧ (invoke st0 optsW envAuthStdout).1.exitCode = 0
    ∧ (invoke st0 optsW envAuthStdout).1.stderr = ""
    ∧ Event.logAuthError ∉ (invoke st0 optsW envAuthStdout).2.2 := by
  decide

/-- Claim C1 (amended): classification checks the two captured streams
asymmetrically. Standard error is checked for auth patterns regardless of
exit code, but standard output is checked only when the exit code is
non-zero; a child that writes auth-failure text to stdout only and exits 0
is reported as a success with the trimmed stdout, and the auth side effect
does not fire. -/
theorem C1_authStreamAsymmetry (st : ServiceState) (o : ClaudeInvokeOptions)
    (env : InvokeEnv) (out err : String) (code : Option Int)
    (hs : env.spawnError = none)
    (hb : env.behavior = ProcBehavior.completes out err code)
    (hw : o.cwd.isSome = true ∨ exceptOk env.mkdtempResult = true) :
    (isAuthError err = false → code = some 0 →
      (invoke st o env).1 = ⟨jsTrim out, 0, jsTrim err, env.duration⟩
      ∧ countAuthLogs (invoke st o env).2.2 = 0)
    ∧ (isAuthError err = true →
      (invoke st o env).1.output = ""
      ∧ (invoke st o env).1.exitCode = code.getD 1) := by
  rcases hcw : o.cwd with _ | c
  · rcases hmk : env.mkdtempResult with msg | d
    · exfalso
      rcases hw with h | h
      · rw [hcw] at h; simp at h
      · rw [hmk] at h; simp [exceptOk] at h
    · constructor
      · intro hE h0
        subst h0
        have hA : authCondition out err (some 0) = false := by
          simp [authCondition, hE]
        constructor
        · simp [invoke, hcw, hmk, runSpawn, hs, hb, hA]
        · rcases hrf : env.rmFails with _ | _ <;>
            simp [invoke, hcw, hmk, runSpawn, hs, hb, hA, hrf, countAuthLogs,
              countAuthLogs_append, finallyEvents]
      · intro hE
        have hA : authCondition out err code = true := by
          simp [authCondition, hE]
        simp [invoke, hcw, hmk, runSpawn, hs, hb, hA]
  · constructor
    · intro hE h0
      subst h0
      have hA : authCondition out err (some 0) = false := by
        simp [authCondition, hE]
      constructor
      · simp [invoke, hcw, runSpawn, hs, hb, hA]
      · rcases hrf : env.rmFails with _ | _ <;>
          simp [invoke, hcw, runSpawn, hs, hb, hA, hrf, countAuthLogs,
            countAuthLogs_append, finallyEvents]
    · intro hE
      have hA : authCondition out err code = true := by
        simp [authCondition, hE]
      simp [invoke, hcw, runSpawn, hs, hb, hA]

/-- Witness for `C1_authStreamAsymmetry` at a concrete input. -/
theorem C1_authStreamAsymmetry_witness :
    ((invoke st0 optsW envAuthStdout).1
        = ⟨jsTrim "OAuth token has expired", 0, jsTrim "", 5⟩
      ∧ countAuthLogs (invoke st0 optsW envAuthStdout).2.2 = 0)
    ∧ ((invoke st0 optsW envAuthErr).1.output = ""
      ∧ (invoke st0 optsW envAuthErr).1.exitCode = (some (1 : Int)).getD 1) :=
  ⟨(C1_authStreamAsymmetry st0 optsW envAuthStdout "OAuth token has expired" ""
      (some 0) rfl rfl (Or.inl rfl)).1 (by decide) rfl,
   (C1_authStreamAsymmetry st0 optsW envAuthErr "" "OAuth token has expired"
      (some 1) rfl rfl (Or.inl rfl)).2 (by decide)⟩

/-! ## Claim C2 -/

/-- Claim C2: when the child runs past the configured timeout, `invoke`
resolves as a timeout failure whose diagnostic reports the configured
threshold, and the process receives a kill signal before any result is
produced (the kill event is in the trace, which is fully emitted before
`invoke` returns its result). -/
theorem C2_timeoutContract (st : ServiceState) (o : ClaudeInvokeOptions)
    (env : InvokeEnv)
    (hs : env.spawnError = none)
    (hb : env.behavior = ProcBehavior.timesOut)
    (hw : o.cwd.isSome = true ∨ exceptOk env.mkdtempResult = true) :
    (invoke st o env).1
      = ⟨"", 1, timeoutMessage (o.timeout.getD st.defaultTimeout), env.duration⟩
    ∧ Event.kill ∈ (invoke st o env).2.2 := by
  rcases hcw : o.cwd with _ | c
  · rcases hmk : env.mkdtempResult with msg | d
    · exfalso
      rcases hw with h | h
      · rw [hcw] at h; simp at h
      · rw [hmk] at h; simp [exceptOk] at h
    · constructor
      · simp [invoke, hcw, hmk, runSpawn, hs, hb, invokeCatch]
      · simp [invoke, hcw, hmk, runSpawn, hs, hb, invokeCatch]
  · constructor
    · simp [invoke, hcw, runSpawn, hs, hb, invokeCatch]
    · simp [invoke, hcw, runSpawn, hs, hb, invokeCatch]

/-- Witness for `C2_timeoutContract` at a concrete input. -/
theorem C2_timeoutContract_witness :
    (invoke st0 optsW envTimeout).1
      = ⟨"", 1, timeoutMessage ((none : Option Nat).getD st0.defaultTimeout), 5⟩
    ∧ Event.kill ∈ (invoke st0 optsW envTimeout).2.2 :=
  C2_timeoutContract st0 optsW envTimeout rfl rfl (Or.inl rfl)

/-! ## Claim C3 -/

/-- Claim C3: with no `workingDirectory` given and `mkdtemp` succeeding,
the engine creates the temp workspace and attempts its removal on every
outcome, a removal failure is logged (`removeDirFailed`) but never changes
the returned result, and with an explicit `workingDirectory` the engine
never creates or removes any directory. -/
theorem C3_workspaceLifecycle (st : ServiceState) (o : ClaudeInvokeOptions)
    (env : InvokeEnv) :
    (∀ c, o.cwd = some c → ∀ d,
      Event.createTempDir d ∉ (invoke st o env).2.2
      ∧ Event.removeDirOk d ∉ (invoke st o env).2.2
      ∧ Event.removeDirFailed d ∉ (invoke st o env).2.2)
    ∧ (∀ d, o.cwd = none → env.mkdtempResult = Except.ok d →
      Event.createTempDir d ∈ (invoke st o env).2.2
      ∧ (env.rmFails = false → Event.removeDirOk d ∈ (invoke st o env).2.2)
      ∧ (env.rmFails = true → Event.removeDirFailed d ∈ (invoke st o env).2.2)
      ∧ (invoke st o { env with rmFails := true }).1
          = (invoke st o { env with rmFails := false }).1) := by
  constructor
  · intro c hcw d
    rcases hsp : env.spawnError with _ | msg
    · rcases hbh : env.behavior with ⟨out, err, code⟩ | _
      · by_cases hA : authCondition out err code = true
        · cases hhe : st.authErrorEmitted <;>
            simp [invoke, hcw, runSpawn, hsp, hbh, hA, finallyEvents,
              handleAuthError, hhe]
        · simp [invoke, hcw, runSpawn, hsp, hbh, finallyEvents, hA]
      · by_cases hA : isAuthError (timeoutMessage (o.timeout.getD st.defaultTimeout)) = true <;>
          cases hhe : st.authErrorEmitted <;>
            simp [invoke, hcw, runSpawn, hsp, hbh, invokeCatch, finallyEvents,
              handleAuthError, hhe, hA]
    · by_cases hA : isAuthError msg = true <;>
        cases hhe : st.authErrorEmitted <;>
          simp [invoke, hcw, runSpawn, hsp, invokeCatch, finallyEvents,
            handleAuthError, hhe, hA]
  · intro d hcw hmk
    refine ⟨?_, ?_, ?_, ?_⟩
    · rcases hsp : env.spawnError with _ | msg
      · rcases hbh : env.behavior with ⟨out, err, code⟩ | _
        · by_cases hA : authCondition out err code = true <;>
            simp [invoke, hcw, hmk, runSpawn, hsp, hbh, hA]
        · simp [invoke, hcw, hmk, runSpawn, hsp, hbh, invokeCatch]
      · simp [invoke, hcw, hmk, runSpawn, hsp, invokeCatch]
    · intro hrf
      rcases hsp : env.spawnError with _ | msg
      · rcases hbh : env.behavior with ⟨out, err, code⟩ | _
        · by_cases hA : authCondition out err code = true <;>
            simp [invoke, hcw, hmk, runSpawn, hsp, hbh, hA, finallyEvents, hrf]
        · simp [invoke, hcw, hmk, runSpawn, hsp, hbh, invokeCatch, finallyEvents, hrf]
      · simp [invoke, hcw, hmk, runSpawn, hsp, invokeCatch, finallyEvents, hrf]
    · intro hrf
      rcases hsp : env.spawnError with _ | msg
      · rcases hbh : env.behavior with ⟨out, err, code⟩ | _
        · by_cases hA : authCondition out err code = true <;>
            simp [invoke, hcw, hmk, runSpawn, hsp, hbh, hA, finallyEvents, hrf]
        · simp [invoke, hcw, hmk, runSpawn, hsp, hbh, invokeCatch, finallyEvents, hrf]
      · simp [invoke, hcw, hmk, runSpawn, hsp, invokeCatch, finallyEvents, hrf]
    · rcases hsp : env.spawnError with _ | msg
      · rcases hbh : env.behavior with ⟨out, err, code⟩ | _
        · by_cases hA : authCondition out err code = true <;>
            simp [invoke, hcw, hmk, runSpawn, hsp, hbh, hA, invokeCatch]
        · simp [invoke, hcw, hmk, runSpawn, hsp, hbh, invokeCatch]
      · simp [invoke, hcw, hmk, runSpawn, hsp, invokeCatch]

/-- Witness for `C3_workspaceLifecycle` at concrete inputs: with an
engine-created workspace the create and remove events both appear (and the
removal failure is logged when `rm` fails), while with an explicit working
directory no workspace event appears. -/
theorem C3_workspaceLifecycle_witness :
    Event.createTempDir "/tmp/d" ∈ (invoke st0 optsN envHello).2.2
    ∧ Event.removeDirOk "/tmp/d" ∈ (invoke st0 optsN envHello).2.2
    ∧ Event.removeDirFailed "/tmp/d" ∈ (invoke st0 optsN envHelloRmFail).2.2
    ∧ Event.createTempDir "/tmp/d" ∉ (invoke st0 optsW envHello).2.2 := by
  refine ⟨?_, ?_, ?_, ?_⟩
  · exact ((C3_workspaceLifecycle st0 optsN envHello).2 "/tmp/d" rfl rfl).1
  · exact ((C3_workspaceLifecycle st0 optsN envHello).2 "/tmp/d" rfl rfl).2.1 rfl
  · exact ((C3_workspaceLifecycle st0 optsN envHelloRmFail).2 "/tmp/d" rfl rfl).2.2.1 rfl
  · exact (((C3_workspaceLifecycle st0 optsW envHello).1 "/w" rfl) "/tmp/d").1

/-! ## Claim C4 -/

/-- Claim C4: `invoke` never propagates an exception — every failure mode
is reported through a normally-returned result. A `Bun.spawn` throw, an
`mkdtemp` throw, and a timeout each produce a result with `exitCode = 1`
and the diagnostic message in the stderr field; a completed child (any
exit code, auth-classified or not) also produces a normally-returned
result. -/
theorem C4_neverThrows (st : ServiceState) (o : ClaudeInvokeOptions)
    (env : InvokeEnv) :
    (∀ msg, env.spawnError = some msg →
      (o.cwd.isSome = true ∨ exceptOk env.mkdtempResult = true) →
      (invoke st o env).1 = ⟨"", 1, msg, env.duration⟩)
    ∧ (∀ msg, o.cwd = none → env.mkdtempResult = Except.error msg →
      (invoke st o env).1 = ⟨"", 1, msg, env.duration⟩)
    ∧ (env.spawnError = none → env.behavior = ProcBehavior.timesOut →
      (o.cwd.isSome = true ∨ exceptOk env.mkdtempResult = true) →
      (invoke st o env).1
        = ⟨"", 1, timeoutMessage (o.timeout.getD st.defaultTimeout), env.duration⟩)
    ∧ (∀ out err code, env.spawnError = none →
      env.behavior = ProcBehavior.completes out err code →
      (o.cwd.isSome = true ∨ exceptOk env.mkdtempResult = true) →
      (invoke st o env).1 =
        if authCondition out err code then
          ⟨"", code.getD 1,
           if err = "" then "OAuth token expired. Run: claude login" else err,
           env.duration⟩
        else ⟨jsTrim out, code.getD 0, jsTrim err, env.duration⟩) := by
  refine ⟨?_, ?_, ?_, ?_⟩
  · intro msg hsp hw
    rcases hcw : o.cwd with _ | c
    · rcases hmk : env.mkdtempResult with m | d
      · exfalso
        rcases hw with h | h
        · rw [hcw] at h; simp at h
        · rw [hmk] at h; simp [exceptOk] at h
      · simp [invoke, hcw, hmk, runSpawn, hsp, invokeCatch]
    · simp [invoke, hcw, runSpawn, hsp, invokeCatch]
  · intro msg hcw hmk
    simp [invoke, hcw, hmk, invokeCatch]
  · intro hsp hbh hw
    rcases hcw : o.cwd with _ | c
    · rcases hmk : env.mkdtempResult with m | d
      · exfalso
        rcases hw with h | h
        · rw [hcw] at h; simp at h
        · rw [hmk] at h; simp [exceptOk] at h
      · simp [invoke, hcw, hmk, runSpawn, hsp, hbh, invokeCatch]
    · simp [invoke, hcw, runSpawn, hsp, hbh, invokeCatch]
  · intro out err code hsp hbh hw
    rcases hcw : o.cwd with _ | c
    · rcases hmk : env.mkdtempResult with m | d
      · exfalso
        rcases hw with h | h
        · rw [hcw] at h; simp at h
        · rw [hmk] at h; simp [exceptOk] at h
      · by_cases hA : authCondition out err code = true <;>
          simp [invoke, hcw, hmk, runSpawn, hsp, hbh, hA]
    · by_cases hA : authCondition out err code = true <;>
        simp [invoke, hcw, runSpawn, hsp, hbh, hA]

/-- Witness for `C4_neverThrows` at a concrete input: a spawn throw is
converted into an error-shaped result rather than propagated. -/
theorem C4_neverThrows_witness :
    (invoke st0 optsW envSpawnFail).1 = ⟨"", 1, "spawn claude ENOENT", 5⟩ :=
  (C4_neverThrows st0 optsW envSpawnFail).1 "spawn claude ENOENT" rfl (Or.inl rfl)

/-! ## Claim C5 -/

/-- Claim C5 as stated is false: on a zero-exit invocation with non-empty
output, the service-level `generateText` returns the text with no
structural marker — here it returns plain "hello", which does not start
with the opening marker, so the result is not bounded by the marker pair. -/
theorem C5_counterexample :
    (generateText st0 "hi" none envHello).1 = Except.ok "hello"
    ∧ jsStartsWith "hello" "<response>" = false :=
  ⟨rfl, by decide⟩

/-- Claim C5 (amended): the marker-pair wrapping lives only in the
provider's fallback direct-invocation path. There, the returned text
always begins with the opening marker: the marker pair is added around the
trimmed output exactly when it does not already begin with the opening
marker, and an already-marked text is returned unchanged (never
double-wrapped). The service-level `generateText` instead strips the
marker pair from a successful result. -/
theorem C5_markerNormalization (out : String) (r : ClaudeInvokeResult) :
    jsStartsWith (invokeDirectlyNormalize out) "<response>" = true
    ∧ (jsStartsWith (jsTrim out) "<response>" = true →
        invokeDirectlyNormalize out = jsTrim out)
    ∧ (jsStartsWith (jsTrim out) "<response>" = false →
        invokeDirectlyNormalize out = "<response>\n" ++ jsTrim out ++ "\n</response>")
    ∧ (r.exitCode = 0 → r.output ≠ "" →
        generateTextPost r = Except.ok (stripResponseTags r.output)) := by
  refine ⟨?_, ?_, ?_, ?_⟩
  · by_cases h : jsStartsWith (jsTrim out) "<response>" = true
    · simp [invokeDirectlyNormalize, h]
    · rw [Bool.not_eq_true] at h
      simp only [invokeDirectlyNormalize, h, Bool.false_eq_true, if_false]
      show ("<response>".data.isPrefixOf
        (("<response>\n" ++ jsTrim out ++ "\n</response>")).data) = true
      rw [String.data_append, String.data_append]
      have h10 : ("<response>\n").data = "<response>".data ++ ['\n'] := by decide
      rw [h10, List.append_assoc, List.append_assoc]
      exact isPrefixOf_append_self _ _
  · intro h
    simp [invokeDirectlyNormalize, h]
  · intro h
    simp [invokeDirectlyNormalize, h]
  · intro h0 hne
    simp [generateTextPost, h0, hne]

/-- Witness for `C5_markerNormalization` at concrete inputs. -/
theorem C5_markerNormalization_witness :
    (invokeDirectlyNormalize "<response>hi</response>" = jsTrim "<response>hi</response>")
    ∧ (invokeDirectlyNormalize " hello " = "<response>\n" ++ jsTrim " hello " ++ "\n</response>")
    ∧ (generateTextPost ⟨"<response>hi</response>", 0, "", 5⟩
        = Except.ok (stripResponseTags "<response>hi</response>")) :=
  ⟨(C5_markerNormalization "<response>hi</response>" ⟨"", 0, "", 0⟩).2.1 (by decide),
   (C5_markerNormalization " hello " ⟨"", 0, "", 0⟩).2.2.1 (by decide),
   (C5_markerNormalization "" ⟨"<response>hi</response>", 0, "", 5⟩).2.2.2 rfl (by decide)⟩

/-! ## Claim C6 -/

/-- Claim C6 as stated is false: on a non-zero exit with empty stderr, the
service-level `generateText` raises `ClaudeCodeError: Unknown error` — it
does not carry the non-empty stdout ("oops") as the message. -/
theorem C6_counterexample :
    (generateText st0 "hi" none envFailEmptyErr).1
      = Except.error "ClaudeCodeError: Unknown error"
    ∧ jsIncludes "ClaudeCodeError: Unknown error" "oops" = false :=
  ⟨rfl, by decide⟩

/-- Claim C6 (amended): on a non-zero exit the service-level
`generateText` raises `ClaudeCodeError` carrying stderr, with the fixed
string "Unknown error" — not stdout — as the fallback when stderr is
empty; the stdout fallback exists only in the provider's fallback direct
path, whose failure message carries stderr, else stdout, else the fixed
fallback. On exit 0 with empty output the service raises `EmptyOutput`. -/
theorem C6_errorMessages (r : ClaudeInvokeResult) (output errors : String) :
    (r.exitCode ≠ 0 →
      generateTextPost r = Except.error
        ("ClaudeCodeError: " ++ (if r.stderr = "" then "Unknown error" else r.stderr)))
    ∧ (r.exitCode = 0 → r.output = "" →
      generateTextPost r = Except.error "EmptyOutput: Claude Code returned nothing")
    ∧ (jsTrim errors = "" → jsTrim output ≠ "" →
      invokeDirectlyFail output errors = "ClaudeCodeError: " ++ jsTrim output) := by
  refine ⟨?_, ?_, ?_⟩
  · intro h
    simp [generateTextPost, h]
  · intro h0 hout
    simp [generateTextPost, h0, hout]
  · intro herr hout
    simp [invokeDirectlyFail, herr, hout]

/-- Witness for `C6_errorMessages` at concrete inputs. -/
theorem C6_errorMessages_witness :
    (generateTextPost ⟨"oops", 1, "", 5⟩
      = Except.error ("ClaudeCodeError: " ++ (if ("" : String) = "" then "Unknown error" else "")))
    ∧ (generateTextPost ⟨"", 0, "", 5⟩
      = Except.error "EmptyOutput: Claude Code returned nothing")
    ∧ (invokeDirectlyFail "oops" " " = "ClaudeCodeError: " ++ jsTrim "oops") :=
  ⟨(C6_errorMessages ⟨"oops", 1, "", 5⟩ "" "").1 (by decide),
   (C6_errorMessages ⟨"", 0, "", 5⟩ "" "").2.1 rfl rfl,
   (C6_errorMessages ⟨"", 0, "", 5⟩ "oops" " ").2.2 (by decide) (by decide)⟩

/-! ## Claim C7 -/

theorem invokeCatch_auth_invariant (st : ServiceState) (msg : String) (du : Nat) :
    (invokeCatch st msg du).2.1.authErrorEmitted.toNat
      = st.authErrorEmitted.toNat + countAuthLogs (invokeCatch st msg du).2.2
    ∧ countAuthLogs (invokeCatch st msg du).2.2 ≤ 1 - st.authErrorEmitted.toNat := by
  cases hAm : isAuthError msg <;>
    cases hst : st.authErrorEmitted <;>
      simp [invokeCatch, hAm, handleAuthError, hst, countAuthLogs]

theorem runSpawn_auth_invariant (st : ServiceState) (args : List String)
    (wd : String) (td : Option String) (env : InvokeEnv) (tmo : Nat) :
    (runSpawn st args wd td env tmo).2.1.authErrorEmitted.toNat
      = st.authErrorEmitted.toNat + countAuthLogs (runSpawn st args wd td env tmo).2.2
    ∧ countAuthLogs (runSpawn st args wd td env tmo).2.2
        ≤ 1 - st.authErrorEmitted.toNat := by
  rcases td with _ | d <;> cases hrf : env.rmFails <;>
    (rcases hsp : env.spawnError with _ | msg
     · rcases hbh : env.behavior with ⟨out, err, code⟩ | _
       · by_cases hA : authCondition out err code = true
         · cases hst : st.authErrorEmitted <;>
             simp [runSpawn, hsp, hbh, hA, handleAuthError, hst, finallyEvents,
               hrf, countAuthLogs, countAuthLogs_append]
         · simp [runSpawn, hsp, hbh, hA, finallyEvents, hrf, countAuthLogs,
             countAuthLogs_append]
       · cases hAm : isAuthError (timeoutMessage tmo) <;>
           cases hst : st.authErrorEmitted <;>
             simp [runSpawn, hsp, hbh, invokeCatch, hAm, handleAuthError, hst,
               finallyEvents, hrf, countAuthLogs, countAuthLogs_append]
     · cases hAm : isAuthError msg <;>
         cases hst : st.authErrorEmitted <;>
           simp [runSpawn, hsp, invokeCatch, hAm, handleAuthError, hst,
             finallyEvents, hrf, countAuthLogs, countAuthLogs_append])

theorem invoke_auth_invariant (st : ServiceState) (o : ClaudeInvokeOptions)
    (env : InvokeEnv) :
    (invoke st o env).2.1.authErrorEmitted.toNat
      = st.authErrorEmitted.toNat + countAuthLogs (invoke st o env).2.2
    ∧ countAuthLogs (invoke st o env).2.2 ≤ 1 - st.authErrorEmitted.toNat := by
  rcases hcw : o.cwd with _ | c
  · rcases hmk : env.mkdtempResult with msg | d
    · cases hAm : isAuthError msg <;>
        cases hst : st.authErrorEmitted <;>
          simp [invoke, hcw, hmk, invokeCatch, hAm, handleAuthError, hst,
            countAuthLogs, countAuthLogs_append, countAuthLogs_finally]
    · obtain ⟨h1, h2⟩ := runSpawn_auth_invariant st (buildArgs o) d (some d) env
        (o.timeout.getD st.defaultTimeout)
      constructor
      · simp only [invoke, hcw, hmk]
        simp [countAuthLogs, h1]
      · simp only [invoke, hcw, hmk]
        simp [countAuthLogs]
        omega
  · obtain ⟨h1, h2⟩ := runSpawn_auth_invariant st (buildArgs o) c none env
      (o.timeout.getD st.defaultTimeout)
    constructor
    · simp only [invoke, hcw]
      exact h1
    · simp only [invoke, hcw]
      exact h2

/-- Claim C7: across any sequence of invocations on one instance, the
number of auth-failure log emissions equals the rise of the latch flag
(so the side effect fires at most once overall), and a flag that is set
is never reset by later invocations. -/
theorem C7_authLoggedOnce (st : ServiceState)
    (runs : List (ClaudeInvokeOptions × InvokeEnv)) :
    (runAll st runs).1.authErrorEmitted.toNat
      = st.authErrorEmitted.toNat + countAuthLogs (runAll st runs).2
    ∧ countAuthLogs (runAll st runs).2 ≤ 1 - st.authErrorEmitted.toNat
    ∧ (st.authErrorEmitted = true → (runAll st runs).1.authErrorEmitted = true) := by
  induction runs generalizing st with
  | nil => simp [runAll, countAuthLogs]
  | cons hd tl ih =>
    obtain ⟨o, env⟩ := hd
    obtain ⟨h1, h2⟩ := invoke_auth_invariant st o env
    obtain ⟨g1, g2, g3⟩ := ih (invoke st o env).2.1
    refine ⟨?_, ?_, ?_⟩
    · simp only [runAll, countAuthLogs_append]
      omega
    · simp only [runAll, countAuthLogs_append]
      omega
    · intro hT
      have hmid : (invoke st o env).2.1.authErrorEmitted = true := by
        cases hm : (invoke st o env).2.1.authErrorEmitted
        · rw [hm, hT] at h1
          simp only [Bool.toNat_false, Bool.toNat_true] at h1
          omega
        · rfl
      simp only [runAll]
      exact g3 hmid

/-- Witness for `C7_authLoggedOnce`: on an instance that has already
reported an auth failure, two further auth-failing invocations emit no
additional log and leave the flag set. -/
theorem C7_authLoggedOnce_witness :
    countAuthLogs (runAll stT [(optsW, envAuthErr), (optsW, envAuthErr)]).2 ≤ 1
    ∧ (runAll stT [(optsW, envAuthErr), (optsW, envAuthErr)]).1.authErrorEmitted = true := by
  obtain ⟨h1, h2, h3⟩ := C7_authLoggedOnce stT [(optsW, envAuthErr), (optsW, envAuthErr)]
  exact ⟨le_trans h2 (Nat.sub_le 1 _), h3 rfl⟩

/-! ## Claim C8 -/

/-- Claim C8 as stated is false on two points: an empty access token
yields the not-authenticated flags but with NO diagnostic error string
populated, and an expiry timestamp of 0 — strictly in the past of any
positive `now` — is treated as not expired (JS falsiness of 0), so the
service reports `authenticated = true`. -/
theorem C8_counterexample :
    (checkAuth (CredsFile.parsed ⟨some ⟨"", some 9999, none⟩⟩) 0).authenticated = false
    ∧ (checkAuth (CredsFile.parsed ⟨some ⟨"", some 9999, none⟩⟩) 0).needsLogin = true
    ∧ (checkAuth (CredsFile.parsed ⟨some ⟨"", some 9999, none⟩⟩) 0).error = none
    ∧ (checkAuth (CredsFile.parsed ⟨some ⟨"tok", some 0, none⟩⟩) 1).authenticated = true := by
  decide

/-- Claim C8 (amended): `checkAuth` is a total function (it never raises).
An unreadable or malformed credentials file yields
`authenticated = false, needsLogin = true` with the diagnostic populated;
a missing oauth section or an empty access token yields the same flags
with no diagnostic; a nonzero expiry strictly in the past yields
`authenticated = false, needsLogin = true`; and a zero expiry is treated
as not expired. -/
theorem C8_checkAuthBehavior (now : Int) :
    (∀ msg, checkAuth (CredsFile.unreadable msg) now
        = ⟨false, none, none, true, some msg⟩)
    ∧ (∀ msg, checkAuth (CredsFile.malformed msg) now
        = ⟨false, none, none, true, some msg⟩)
    ∧ (checkAuth (CredsFile.parsed ⟨none⟩) now = ⟨false, none, none, true, none⟩)
    ∧ (∀ ea subty, checkAuth (CredsFile.parsed ⟨some ⟨"", ea, subty⟩⟩) now
        = ⟨false, none, none, true, none⟩)
    ∧ (∀ tok e subty, tok ≠ "" → e ≠ 0 → e < now →
        checkAuth (CredsFile.parsed ⟨some ⟨tok, some e, subty⟩⟩) now
          = ⟨false, some e, subty, true, none⟩)
    ∧ (∀ tok subty, tok ≠ "" →
        (checkAuth (CredsFile.parsed ⟨some ⟨tok, some 0, subty⟩⟩) now).authenticated
          = true) := by
  refine ⟨fun msg => rfl, fun msg => rfl, rfl, fun ea subty => rfl, ?_, ?_⟩
  · intro tok e subty htok he0 hlt
    simp [checkAuth, htok, he0, hlt]
  · intro tok subty htok
    simp [checkAuth, htok]

/-- Witness for `C8_checkAuthBehavior` at concrete inputs. -/
theorem C8_checkAuthBehavior_witness :
    checkAuth (CredsFile.parsed ⟨some ⟨"tok", some 5, none⟩⟩) 100
      = ⟨false, some 5, none, true, none⟩
    ∧ (checkAuth (CredsFile.parsed ⟨some ⟨"tok", some 0, none⟩⟩) 100).authenticated = true
    ∧ checkAuth (CredsFile.unreadable "ENOENT") 100
      = ⟨false, none, none, true, some "ENOENT"⟩ :=
  ⟨(C8_checkAuthBehavior 100).2.2.2.2.1 "tok" 5 none (by decide) (by decide) (by decide),
   (C8_checkAuthBehavior 100).2.2.2.2.2 "tok" none (by decide),
   (C8_checkAuthBehavior 100).1 "ENOENT"⟩

/-! ## Claim C9 -/

/-- A prompt longer than the cap, for the truncation witness. -/
def longPrompt : String := ⟨List.replicate 50001 'a'⟩

/-- Claim C9: the prompt handed to the child process (argument 2 of the
spawned command line) is `prompt.slice(-MAX_PROMPT_LENGTH)`: the whole
prompt when it is within the cap, and exactly the cap-sized tail — cap
characters long, preceded in the original by the dropped head — when it
exceeds the cap. -/
theorem C9_promptTruncation (p : String) :
    (p.data.length ≤ MAX_PROMPT_LENGTH → jsSliceTail p MAX_PROMPT_LENGTH = p)
    ∧ (MAX_PROMPT_LENGTH < p.data.length →
        (jsSliceTail p MAX_PROMPT_LENGTH).data.length = MAX_PROMPT_LENGTH
        ∧ p.data.take (p.data.length - MAX_PROMPT_LENGTH)
            ++ (jsSliceTail p MAX_PROMPT_LENGTH).data = p.data)
    ∧ (∀ (o : ClaudeInvokeOptions),
        (buildArgs o).take 3 = ["claude", "-p", jsSliceTail o.prompt MAX_PROMPT_LENGTH])
    ∧ (∀ (st : ServiceState) (o : ClaudeInvokeOptions) (env : InvokeEnv) (c : String),
        o.cwd = some c → env.spawnError = none →
        Event.spawn (buildArgs o) c ∈ (invoke st o env).2.2) := by
  refine ⟨?_, ?_, fun o => rfl, ?_⟩
  · intro h
    have h0 : p.data.length - MAX_PROMPT_LENGTH = 0 := Nat.sub_eq_zero_of_le h
    show String.mk (p.data.drop (p.data.length - MAX_PROMPT_LENGTH)) = p
    rw [h0, List.drop_zero]
  · intro h
    constructor
    · show (String.mk (p.data.drop (p.data.length - MAX_PROMPT_LENGTH))).data.length
        = MAX_PROMPT_LENGTH
      rw [List.length_drop]
      omega
    · rw [jsSliceTail_data]
      exact List.take_append_drop _ _
  · intro st o env c hcw hsp
    rcases hbh : env.behavior with ⟨out, err, code⟩ | _
    · by_cases hA : authCondition out err code = true <;>
        simp [invoke, hcw, runSpawn, hsp, hbh, hA]
    · simp [invoke, hcw, runSpawn, hsp, hbh]

/-- Witness for `C9_promptTruncation` at concrete inputs: a 50001-character
prompt is cut to its 50000-character tail, a short prompt is unchanged,
and the spawn event carries the built argument list. -/
theorem C9_promptTruncation_witness :
    (jsSliceTail longPrompt MAX_PROMPT_LENGTH).data.length = MAX_PROMPT_LENGTH
    ∧ longPrompt.data.take (longPrompt.data.length - MAX_PROMPT_LENGTH)
        ++ (jsSliceTail longPrompt MAX_PROMPT_LENGTH).data = longPrompt.data
    ∧ jsSliceTail "hi" MAX_PROMPT_LENGTH = "hi"
    ∧ Event.spawn (buildArgs optsW) "/w" ∈ (invoke st0 optsW envHello).2.2 := by
  have hlen : MAX_PROMPT_LENGTH < longPrompt.data.length := by
    have h1 : longPrompt.data.length = 50001 := List.length_replicate 50001 'a'
    rw [h1]
    decide
  obtain ⟨hlong1, hlong2⟩ := (C9_promptTruncation longPrompt).2.1 hlen
  refine ⟨hlong1, hlong2, ?_, ?_⟩
  · exact (C9_promptTruncation "hi").1 (by decide)
  · exact (C9_promptTruncation "hi").2.2.2 st0 optsW envHello "/w" rfl rfl

/-! ## Claim C10 -/

/-- Claim C10: whenever `invoke` classifies a completed child as an
authentication failure, the returned result discards the captured stdout
(`output = ""`), carries the captured stderr — or the fixed re-login
message when stderr is empty — and takes the exit code from the process
with fallback 1. -/
theorem C10_authResultShape (st : ServiceState) (o : ClaudeInvokeOptions)
    (env : InvokeEnv) (out err : String) (code : Option Int)
    (hs : env.spawnError = none)
    (hb : env.behavior = ProcBehavior.completes out err code)
    (hw : o.cwd.isSome = true ∨ exceptOk env.mkdtempResult = true)
    (hA : authCondition out err code = true) :
    (invoke st o env).1.output = ""
    ∧ (invoke st o env).1.stderr
        = (if err = "" then "OAuth token expired. Run: claude login" else err)
    ∧ (invoke st o env).1.exitCode = code.getD 1 := by
  rcases hcw : o.cwd with _ | c
  · rcases hmk : env.mkdtempResult with msg | d
    · exfalso
      rcases hw with h | h
      · rw [hcw] at h; simp at h
      · rw [hmk] at h; simp [exceptOk] at h
    · simp [invoke, hcw, hmk, runSpawn, hs, hb, hA]
  · simp [invoke, hcw, runSpawn, hs, hb, hA]

/-- Witness for `C10_authResultShape` at a concrete input. -/
theorem C10_authResultShape_witness :
    (invoke st0 optsW envAuthErr).1.output = ""
    ∧ (invoke st0 optsW envAuthErr).1.stderr
        = (if ("OAuth token has expired" : String) = ""
           then "OAuth token expired. Run: claude login"
           else "OAuth token has expired")
    ∧ (invoke st0 optsW envAuthErr).1.exitCode = (some (1 : Int)).getD 1 :=
  C10_authResultShape st0 optsW envAuthErr "" "OAuth token has expired" (some 1)
    rfl rfl (Or.inl rfl) (by decide)
